import Mathlib

/-!
Shallow embedding of the OGRE RTShaderSystem shader-function assembler
(Components/RTShaderSystem/src/OgreShaderFunction.cpp).

The embedding models:
- the element-type, semantic and content enumerations (restricted to the
  constructors that appear in the embedded core and its specification);
- Parameter descriptors, with a numeric field pid standing in for pointer
  identity (each construction uses a fresh pid drawn from a counter in the
  Function state);
- the Function state: the three parameter lists, the group-order-keyed atom
  map (a key-sorted association list mirroring iteration order of std::map),
  the flattened-atom cache, and the freshness counter;
- the operations of the core: parameter lookup helpers, typeFromContent,
  add/delete of parameters, resolveInputParameter, resolveOutputParameter,
  resolveLocalParameter (content overload), addAtomInstance,
  deleteAtomInstance and getAtomInstances.

Exceptions (OGRE_EXCEPT with ERR_INVALIDPARAMS) are modelled by the Except
monad carrying the description and source strings the code builds; a C++
throw leaves the object unmutated at every throw site of this file (each
push_back happens after all checks), which the Except model reflects by
returning no successor state on error.
-/

namespace OgreRTShader

/-- Element types of the GPU constant enumeration that this core touches
(the enumeration itself is opaque to the assembler; only equality is used). -/
inductive GpuConstantType where
  | GCT_FLOAT1
  | GCT_FLOAT2
  | GCT_FLOAT3
  | GCT_FLOAT4
  | GCT_INT1
  | GCT_UNKNOWN
  deriving DecidableEq, Repr, Fintype

export GpuConstantType (GCT_FLOAT1 GCT_FLOAT2 GCT_FLOAT3 GCT_FLOAT4 GCT_INT1 GCT_UNKNOWN)

/-- Binding semantics of shader parameters (Parameter::Semantic). -/
inductive Semantic where
  | SPS_UNKNOWN
  | SPS_POSITION
  | SPS_BLEND_WEIGHTS
  | SPS_BLEND_INDICES
  | SPS_NORMAL
  | SPS_COLOR
  | SPS_TEXTURE_COORDINATES
  | SPS_BINORMAL
  | SPS_TANGENT
  deriving DecidableEq, Repr, Fintype

export Semantic (SPS_UNKNOWN SPS_POSITION SPS_BLEND_WEIGHTS SPS_BLEND_INDICES SPS_NORMAL SPS_COLOR SPS_TEXTURE_COORDINATES SPS_BINORMAL SPS_TANGENT)

/-- Content roles of shader parameters (Parameter::Content), restricted to the
roles named by the embedded core plus representative texture-coordinate roles. -/
inductive Content where
  | SPC_UNKNOWN
  | SPC_COLOR_DIFFUSE
  | SPC_COLOR_SPECULAR
  | SPC_POSITION_PROJECTIVE_SPACE
  | SPC_POSITION_WORLD_SPACE
  | SPC_POSITION_OBJECT_SPACE
  | SPC_NORMAL_TANGENT_SPACE
  | SPC_NORMAL_OBJECT_SPACE
  | SPC_NORMAL_WORLD_SPACE
  | SPC_POINTSPRITE_SIZE
  | SPC_TEXTURE_COORDINATE0
  | SPC_TEXTURE_COORDINATE1
  | SPC_BLEND_WEIGHTS
  | SPC_BLEND_INDICES
  | SPC_BINORMAL_OBJECT_SPACE
  | SPC_TANGENT_OBJECT_SPACE
  deriving DecidableEq, Repr, Fintype

export Content (SPC_UNKNOWN SPC_COLOR_DIFFUSE SPC_COLOR_SPECULAR SPC_POSITION_PROJECTIVE_SPACE SPC_POSITION_WORLD_SPACE SPC_POSITION_OBJECT_SPACE SPC_NORMAL_TANGENT_SPACE SPC_NORMAL_OBJECT_SPACE SPC_NORMAL_WORLD_SPACE SPC_POINTSPRITE_SIZE SPC_TEXTURE_COORDINATE0 SPC_TEXTURE_COORDINATE1 SPC_BLEND_WEIGHTS SPC_BLEND_INDICES SPC_BINORMAL_OBJECT_SPACE SPC_TANGENT_OBJECT_SPACE)

/-- A shader parameter descriptor. The field pid models pointer identity:
every construction in the embedded operations draws a fresh pid from the
Function's counter, so two parameters are the same instance iff they are
equal as records. -/
structure Parameter where
  pid : Nat
  type : GpuConstantType
  name : String
  semantic : Semantic
  index : Int
  content : Content
  deriving DecidableEq, Repr

/-- An OGRE_EXCEPT(ERR_INVALIDPARAMS, description, source) exception value. -/
structure OgreException where
  description : String
  source : String
  deriving DecidableEq, Repr

deriving instance DecidableEq for Except

/-- Modelled from the spec: the numeric value of each semantic enumerator,
used by StringConverter::toString when error messages render a semantic
(the enumeration declaration lives in a header outside the embedded file). -/
def semanticValue : Semantic → Nat
  | SPS_UNKNOWN => 0
  | SPS_POSITION => 1
  | SPS_BLEND_WEIGHTS => 2
  | SPS_BLEND_INDICES => 3
  | SPS_NORMAL => 4
  | SPS_COLOR => 5
  | SPS_TEXTURE_COORDINATES => 6
  | SPS_BINORMAL => 7
  | SPS_TANGENT => 8

/-- The error thrown by typeFromContent's default case. -/
def deriveTypeErr : OgreException :=
  { description := "cannot derive type from content", source := "typeFromContent" }

/-- static GpuConstantType typeFromContent(Parameter::Content content):
derives an element type from a content role, throwing for any role outside
the table. -/
def typeFromContent : Content → Except OgreException GpuConstantType
  | SPC_COLOR_DIFFUSE => .ok GCT_FLOAT4
  | SPC_COLOR_SPECULAR => .ok GCT_FLOAT4
  | SPC_POSITION_PROJECTIVE_SPACE => .ok GCT_FLOAT4
  | SPC_POSITION_WORLD_SPACE => .ok GCT_FLOAT4
  | SPC_POSITION_OBJECT_SPACE => .ok GCT_FLOAT4
  | SPC_NORMAL_TANGENT_SPACE => .ok GCT_FLOAT3
  | SPC_NORMAL_OBJECT_SPACE => .ok GCT_FLOAT3
  | SPC_NORMAL_WORLD_SPACE => .ok GCT_FLOAT3
  | SPC_POINTSPRITE_SIZE => .ok GCT_FLOAT1
  | _ => .error deriveTypeErr

/-- Function::getParameterByName: first parameter of the list carrying the
given name (linear scan in list order). -/
def getParameterByName : List Parameter → String → Option Parameter
  | [], _ => none
  | p :: rest, name => if p.name = name then some p else getParameterByName rest name

/-- Function::getParameterBySemantic: first parameter of the list carrying the
given semantic and index (linear scan in list order). -/
def getParameterBySemantic : List Parameter → Semantic → Int → Option Parameter
  | [], _, _ => none
  | p :: rest, semantic, index =>
    if p.semantic = semantic ∧ p.index = index then some p
    else getParameterBySemantic rest semantic index

/-- Inner loop of Function::getParameterByContent: first parameter of the list
carrying the given content and element type. -/
def findByContentType : List Parameter → Content → GpuConstantType → Option Parameter
  | [], _, _ => none
  | p :: rest, content, t =>
    if p.content = content ∧ p.type = t then some p
    else findByContentType rest content t

/-- Function::getParameterByContent: derives the type from the content when the
caller passed GCT_UNKNOWN (which may throw), then searches the list; a request
with unknown content never matches. -/
def getParameterByContent (l : List Parameter) (content : Content)
    (type : GpuConstantType) : Except OgreException (Option Parameter) :=
  match (if type = GCT_UNKNOWN then typeFromContent content else .ok type) with
  | .error e => .error e
  | .ok t =>
    if content ≠ SPC_UNKNOWN then .ok (findByContentType l content t)
    else .ok none

/-- The index counting loop of resolveInputParameter / resolveOutputParameter
with index = -1: number of parameters of the list carrying the semantic. -/
def countSemantic : List Parameter → Semantic → Nat
  | [], _ => 0
  | p :: rest, semantic =>
    (if p.semantic = semantic then 1 else 0) + countSemantic rest semantic

/-- A shader statement-level operation. Operands and kind are opaque to the
container operations embedded here; atomId models pointer identity and
groupExecutionOrder is the coarse scheduling bucket. -/
structure FunctionAtom where
  atomId : Nat
  groupExecutionOrder : Nat
  deriving DecidableEq, Repr

/-- The group-keyed atom container: a key-sorted association list mirroring
a std::map from group-execution-order to the bucket registered under it. -/
abbrev AtomMap := List (Nat × List FunctionAtom)

/-- mAtomInstances[g].push_back(a): append to the bucket of key g, creating
the bucket (at its sorted position) when absent. -/
def mapInsertAtom : AtomMap → Nat → FunctionAtom → AtomMap
  | [], g, a => [(g, [a])]
  | (k, l) :: rest, g, a =>
    if g < k then (g, [a]) :: (k, l) :: rest
    else if g = k then (k, l ++ [a]) :: rest
    else (k, l) :: mapInsertAtom rest g a

/-- Erase the first occurrence of the given atom, reporting whether one was
found (the loop body of Function::deleteAtomInstance). -/
def eraseFirstAtom : List FunctionAtom → FunctionAtom → Option (List FunctionAtom)
  | [], _ => none
  | b :: rest, a =>
    if b = a then some rest
    else (eraseFirstAtom rest a).map (fun l => b :: l)

/-- The map mutation of Function::deleteAtomInstance: mAtomInstances[g] first
default-constructs an empty bucket when the key is absent (a std::map
operator[] side effect), then the bucket is scanned for the atom. -/
def mapDeleteAtom : AtomMap → Nat → FunctionAtom → AtomMap × Bool
  | [], g, _ => ([(g, [])], false)
  | (k, l) :: rest, g, a =>
    if g < k then ((g, []) :: (k, l) :: rest, false)
    else if g = k then
      match eraseFirstAtom l a with
      | some l2 => ((k, l2) :: rest, true)
      | none => ((k, l) :: rest, false)
    else
      let r := mapDeleteAtom rest g a
      ((k, l) :: r.1, r.2)

/-- The rebuild loop of Function::getAtomInstances: concatenate the buckets in
ascending key order. -/
def flattenAtoms : AtomMap → List FunctionAtom
  | [] => []
  | (_, l) :: rest => l ++ flattenAtoms rest

/-- Bucket registered under a key (empty when the key is absent). -/
def bucketGet : AtomMap → Nat → List FunctionAtom
  | [], _ => []
  | (k, l) :: rest, g => if g = k then l else bucketGet rest g

/-- Keys of the atom map. -/
def mapKeys (m : AtomMap) : List Nat :=
  m.map Prod.fst

/-- The state of an RTShader Function: name, the three parameter lists, the
group-keyed atom map, the flattened-atom cache, and the freshness counter
mNextId modelling the allocator that makes every constructed Parameter a
distinct instance. -/
structure Function where
  mName : String
  mInputParameters : List Parameter
  mOutputParameters : List Parameter
  mLocalParameters : List Parameter
  mAtomInstances : AtomMap
  mSortedAtomInstances : List FunctionAtom
  mNextId : Nat
  deriving DecidableEq, Repr

/-- A freshly constructed Function (description and function type omitted:
no embedded operation reads them). -/
def emptyFunction (name : String) : Function :=
  { mName := name
    mInputParameters := []
    mOutputParameters := []
    mLocalParameters := []
    mAtomInstances := []
    mSortedAtomInstances := []
    mNextId := 0 }

/-- Selector for the three parameter lists (the C++ passes the target list by
reference into the shared Function::addParameter). -/
inductive WhichList where
  | inputL
  | outputL
  | localL
  deriving DecidableEq, Repr

def Function.getList (f : Function) : WhichList → List Parameter
  | .inputL => f.mInputParameters
  | .outputL => f.mOutputParameters
  | .localL => f.mLocalParameters

def Function.withList (f : Function) : WhichList → List Parameter → Function
  | .inputL, l => { f with mInputParameters := l }
  | .outputL, l => { f with mOutputParameters := l }
  | .localL, l => { f with mLocalParameters := l }

/-- The duplicate-name error of the shared Function::addParameter. -/
def duplicateNameErr (pname fname : String) : OgreException :=
  { description := "Parameter <" ++ pname ++ "> already declared in function <" ++ fname ++ ">"
    source := "Function::addParameter" }

/-- The duplicate-(semantic, index) error of Function::addInputParameter /
Function::addOutputParameter. -/
def duplicateSemanticErr (pname fname src : String) : OgreException :=
  { description := "Parameter <" ++ pname ++ "> has equal sematic parameter in function <" ++ fname ++ ">"
    source := src }

/-- The type-mismatch error of resolveInputParameter / resolveOutputParameter
at an explicit index. -/
def resolveMismatchErr (fname : String) (semantic : Semantic) (index : Int)
    (src : String) : OgreException :=
  { description := "Can not resolve parameter - semantic: " ++ toString (semanticValue semantic)
      ++ " - index: " ++ toString index ++ " due to type mismatch. Function <" ++ fname ++ ">"
    source := src }

/-- The unsupported-output-semantic error of resolveOutputParameter for
blend weights and blend indices. -/
def unsupportedOutputErr (fname : String) (semantic : Semantic) (index : Int) : OgreException :=
  { description := "Can not resolve parameter - semantic: " ++ toString (semanticValue semantic)
      ++ " - index: " ++ toString index
      ++ " since support in it is not implemented yet. Function <" ++ fname ++ ">"
    source := "Function::resolveOutputParameter" }

/-- Function::addParameter: the shared add path checks the name against the
input list, then against the output list (never against the local list), and
on success appends to the target list. -/
def Function.addParameter (f : Function) (w : WhichList) (p : Parameter) :
    Except OgreException Function :=
  if (getParameterByName f.mInputParameters p.name).isSome then
    .error (duplicateNameErr p.name f.mName)
  else if (getParameterByName f.mOutputParameters p.name).isSome then
    .error (duplicateNameErr p.name f.mName)
  else .ok (f.withList w (f.getList w ++ [p]))

/-- Function::addInputParameter: rejects a duplicate (semantic, index) in the
input list, then delegates to the shared add path. -/
def Function.addInputParameter (f : Function) (p : Parameter) :
    Except OgreException Function :=
  if (getParameterBySemantic f.mInputParameters p.semantic p.index).isSome then
    .error (duplicateSemanticErr p.name f.mName "Function::addInputParameter")
  else f.addParameter .inputL p

/-- Function::addOutputParameter: rejects a duplicate (semantic, index) in the
output list, then delegates to the shared add path. -/
def Function.addOutputParameter (f : Function) (p : Parameter) :
    Except OgreException Function :=
  if (getParameterBySemantic f.mOutputParameters p.semantic p.index).isSome then
    .error (duplicateSemanticErr p.name f.mName "Function::addOutputParameter")
  else f.addParameter .outputL p

/-- Function::deleteParameter: erase the first list entry that is the same
instance; silently a no-op when absent. -/
def deleteParameterFromList : List Parameter → Parameter → List Parameter
  | [], _ => []
  | q :: rest, p => if q = p then rest else q :: deleteParameterFromList rest p

def Function.deleteInputParameter (f : Function) (p : Parameter) : Function :=
  { f with mInputParameters := deleteParameterFromList f.mInputParameters p }

def Function.deleteOutputParameter (f : Function) (p : Parameter) : Function :=
  { f with mOutputParameters := deleteParameterFromList f.mOutputParameters p }

def Function.deleteAllInputParameters (f : Function) : Function :=
  { f with mInputParameters := [] }

def Function.deleteAllOutputParameters (f : Function) : Function :=
  { f with mOutputParameters := [] }

/-- Modelled from the spec: the parameter factory (an external collaborator,
declared outside the embedded file) constructs canonical Parameters for
standard semantics given an index; each constructor fixes the element type,
a canonical name stem and a canonical content role, while the texcoord
constructor additionally passes the requested type and content through.
The pid argument is the freshness counter supplying instance identity. -/
def ParameterFactory.createInPosition (pid : Nat) (index : Int) : Parameter :=
  { pid := pid, type := GCT_FLOAT4, name := "iPos_" ++ toString index
    semantic := SPS_POSITION, index := index, content := SPC_POSITION_OBJECT_SPACE }

/-- Modelled from the spec: factory constructor for input blend weights. -/
def ParameterFactory.createInWeights (pid : Nat) (index : Int) : Parameter :=
  { pid := pid, type := GCT_FLOAT4, name := "iBlendWeights_" ++ toString index
    semantic := SPS_BLEND_WEIGHTS, index := index, content := SPC_BLEND_WEIGHTS }

/-- Modelled from the spec: factory constructor for input blend indices. -/
def ParameterFactory.createInIndices (pid : Nat) (index : Int) : Parameter :=
  { pid := pid, type := GCT_FLOAT4, name := "iBlendIndices_" ++ toString index
    semantic := SPS_BLEND_INDICES, index := index, content := SPC_BLEND_INDICES }

/-- Modelled from the spec: factory constructor for input normals. -/
def ParameterFactory.createInNormal (pid : Nat) (index : Int) : Parameter :=
  { pid := pid, type := GCT_FLOAT3, name := "iNormal_" ++ toString index
    semantic := SPS_NORMAL, index := index, content := SPC_NORMAL_OBJECT_SPACE }

/-- Modelled from the spec: factory constructor for input colors. -/
def ParameterFactory.createInColor (pid : Nat) (index : Int) : Parameter :=
  { pid := pid, type := GCT_FLOAT4, name := "iColor_" ++ toString index
    semantic := SPS_COLOR, index := index, content := SPC_COLOR_DIFFUSE }

/-- Modelled from the spec: factory constructor for input texture coordinates;
type and content are the caller's request, passed through unchanged. -/
def ParameterFactory.createInTexcoord (pid : Nat) (type : GpuConstantType)
    (index : Int) (content : Content) : Parameter :=
  { pid := pid, type := type, name := "iTexcoord_" ++ toString index
    semantic := SPS_TEXTURE_COORDINATES, index := index, content := content }

/-- Modelled from the spec: factory constructor for input binormals. -/
def ParameterFactory.createInBiNormal (pid : Nat) (index : Int) : Parameter :=
  { pid := pid, type := GCT_FLOAT3, name := "iBiNormal_" ++ toString index
    semantic := SPS_BINORMAL, index := index, content := SPC_BINORMAL_OBJECT_SPACE }

/-- Modelled from the spec: factory constructor for input tangents. -/
def ParameterFactory.createInTangent (pid : Nat) (index : Int) : Parameter :=
  { pid := pid, type := GCT_FLOAT3, name := "iTangent_" ++ toString index
    semantic := SPS_TANGENT, index := index, content := SPC_TANGENT_OBJECT_SPACE }

/-- Modelled from the spec: factory constructor for output positions. -/
def ParameterFactory.createOutPosition (pid : Nat) (index : Int) : Parameter :=
  { pid := pid, type := GCT_FLOAT4, name := "oPos_" ++ toString index
    semantic := SPS_POSITION, index := index, content := SPC_POSITION_PROJECTIVE_SPACE }

/-- Modelled from the spec: factory constructor for output normals. -/
def ParameterFactory.createOutNormal (pid : Nat) (index : Int) : Parameter :=
  { pid := pid, type := GCT_FLOAT3, name := "oNormal_" ++ toString index
    semantic := SPS_NORMAL, index := index, content := SPC_NORMAL_OBJECT_SPACE }

/-- Modelled from the spec: factory constructor for output colors. -/
def ParameterFactory.createOutColor (pid : Nat) (index : Int) : Parameter :=
  { pid := pid, type := GCT_FLOAT4, name := "oColor_" ++ toString index
    semantic := SPS_COLOR, index := index, content := SPC_COLOR_DIFFUSE }

/-- Modelled from the spec: factory constructor for output texture coordinates;
type and content are the caller's request, passed through unchanged. -/
def ParameterFactory.createOutTexcoord (pid : Nat) (type : GpuConstantType)
    (index : Int) (content : Content) : Parameter :=
  { pid := pid, type := type, name := "oTexcoord_" ++ toString index
    semantic := SPS_TEXTURE_COORDINATES, index := index, content := content }

/-- Modelled from the spec: factory constructor for output binormals. -/
def ParameterFactory.createOutBiNormal (pid : Nat) (index : Int) : Parameter :=
  { pid := pid, type := GCT_FLOAT3, name := "oBiNormal_" ++ toString index
    semantic := SPS_BINORMAL, index := index, content := SPC_BINORMAL_OBJECT_SPACE }

/-- Modelled from the spec: factory constructor for output tangents. -/
def ParameterFactory.createOutTangent (pid : Nat) (index : Int) : Parameter :=
  { pid := pid, type := GCT_FLOAT3, name := "oTangent_" ++ toString index
    semantic := SPS_TANGENT, index := index, content := SPC_TANGENT_OBJECT_SPACE }

/-- The creation switch of Function::resolveInputParameter: dispatch on the
semantic to a factory constructor (the asserts of the non-texcoord arms are
release-mode no-ops and are not modelled). The C++ switch overwrites the local
param variable in every creatable arm but leaves it untouched for the unknown
semantic; carried is the value that variable holds on entry — the occupant of
the explicit (semantic, index) slot when one of non-matching content was
found, and null on every other path — so the unknown arm yields carried and a
slot occupant then flows on into addInputParameter. -/
def Function.createInputBySemantic (f : Function) (semantic : Semantic) (index : Int)
    (content : Content) (type : GpuConstantType) (carried : Option Parameter) :
    Option Parameter :=
  match semantic with
  | SPS_POSITION => some (ParameterFactory.createInPosition f.mNextId index)
  | SPS_BLEND_WEIGHTS => some (ParameterFactory.createInWeights f.mNextId index)
  | SPS_BLEND_INDICES => some (ParameterFactory.createInIndices f.mNextId index)
  | SPS_NORMAL => some (ParameterFactory.createInNormal f.mNextId index)
  | SPS_COLOR => some (ParameterFactory.createInColor f.mNextId index)
  | SPS_TEXTURE_COORDINATES => some (ParameterFactory.createInTexcoord f.mNextId type index content)
  | SPS_BINORMAL => some (ParameterFactory.createInBiNormal f.mNextId index)
  | SPS_TANGENT => some (ParameterFactory.createInTangent f.mNextId index)
  | SPS_UNKNOWN => carried

/-- The tail of resolveInputParameter after the creation switch: register a
constructed parameter through addInputParameter (bumping the identity
counter), or return the empty result when nothing was constructed. -/
def Function.finishResolveInput (f : Function) (param? : Option Parameter) :
    Except OgreException (Option Parameter × Function) :=
  match param? with
  | none => .ok (none, f)
  | some p =>
    match Function.addInputParameter { f with mNextId := f.mNextId + 1 } p with
    | .error e => .error e
    | .ok f2 => .ok (some p, f2)

/-- ParameterPtr Function::resolveInputParameter(semantic, index, content, type):
content lookup first; then either next-free-index computation (index = -1) or
the exact (semantic, index) check with its type-mismatch error; then the
creation switch (fed with the occupant the param variable still holds when the
slot check found one of non-matching content) and registration. -/
def Function.resolveInputParameter (f : Function) (semantic : Semantic) (index : Int)
    (content : Content) (type : GpuConstantType) :
    Except OgreException (Option Parameter × Function) :=
  match getParameterByContent f.mInputParameters content type with
  | .error e => .error e
  | .ok (some param) => .ok (some param, f)
  | .ok none =>
    if index = -1 then
      f.finishResolveInput (f.createInputBySemantic semantic
        (Int.ofNat (countSemantic f.mInputParameters semantic)) content type none)
    else
      match getParameterBySemantic f.mInputParameters semantic index with
      | some param =>
        if param.content = content then
          if param.type = type then .ok (some param, f)
          else .error (resolveMismatchErr f.mName semantic index "Function::resolveInputParameter")
        else f.finishResolveInput (f.createInputBySemantic semantic index content type (some param))
      | none => f.finishResolveInput (f.createInputBySemantic semantic index content type none)

/-- The creation switch of Function::resolveOutputParameter: like the input
switch, except that blend weights and blend indices throw the
unsupported-semantic error; the unknown arm again leaves the param variable
as carried in (the occupant of a non-matching explicit slot, else null). -/
def Function.createOutputBySemantic (f : Function) (semantic : Semantic) (index : Int)
    (content : Content) (type : GpuConstantType) (carried : Option Parameter) :
    Except OgreException (Option Parameter) :=
  match semantic with
  | SPS_POSITION => .ok (some (ParameterFactory.createOutPosition f.mNextId index))
  | SPS_BLEND_WEIGHTS => .error (unsupportedOutputErr f.mName semantic index)
  | SPS_BLEND_INDICES => .error (unsupportedOutputErr f.mName semantic index)
  | SPS_NORMAL => .ok (some (ParameterFactory.createOutNormal f.mNextId index))
  | SPS_COLOR => .ok (some (ParameterFactory.createOutColor f.mNextId index))
  | SPS_TEXTURE_COORDINATES => .ok (some (ParameterFactory.createOutTexcoord f.mNextId type index content))
  | SPS_BINORMAL => .ok (some (ParameterFactory.createOutBiNormal f.mNextId index))
  | SPS_TANGENT => .ok (some (ParameterFactory.createOutTangent f.mNextId index))
  | SPS_UNKNOWN => .ok carried

/-- The tail of resolveOutputParameter after the creation switch. -/
def Function.finishResolveOutput (f : Function) (param? : Option Parameter) :
    Except OgreException (Option Parameter × Function) :=
  match param? with
  | none => .ok (none, f)
  | some p =>
    match Function.addOutputParameter { f with mNextId := f.mNextId + 1 } p with
    | .error e => .error e
    | .ok f2 => .ok (some p, f2)

/-- ParameterPtr Function::resolveOutputParameter(semantic, index, content, type). -/
def Function.resolveOutputParameter (f : Function) (semantic : Semantic) (index : Int)
    (content : Content) (type : GpuConstantType) :
    Except OgreException (Option Parameter × Function) :=
  match getParameterByContent f.mOutputParameters content type with
  | .error e => .error e
  | .ok (some param) => .ok (some param, f)
  | .ok none =>
    if index = -1 then
      match f.createOutputBySemantic semantic
          (Int.ofNat (countSemantic f.mOutputParameters semantic)) content type none with
      | .error e => .error e
      | .ok param? => f.finishResolveOutput param?
    else
      match getParameterBySemantic f.mOutputParameters semantic index with
      | some param =>
        if param.content = content then
          if param.type = type then .ok (some param, f)
          else .error (resolveMismatchErr f.mName semantic index "Function::resolveOutputParameter")
        else
          match f.createOutputBySemantic semantic index content type (some param) with
          | .error e => .error e
          | .ok param? => f.finishResolveOutput param?
      | none =>
        match f.createOutputBySemantic semantic index content type none with
        | .error e => .error e
        | .ok param? => f.finishResolveOutput param?

/-- ParameterPtr Function::resolveLocalParameter(semantic, index, content, type):
derive the type from the content when unknown (which may throw), look up by
(content, type) in the local list, and otherwise construct a local parameter
named lLocalParam_ followed by the current local-list size and register it
through the shared add path. -/
def Function.resolveLocalParameter (f : Function) (semantic : Semantic) (index : Int)
    (content : Content) (type : GpuConstantType) :
    Except OgreException (Parameter × Function) :=
  match (if type = GCT_UNKNOWN then typeFromContent content else .ok type) with
  | .error e => .error e
  | .ok t =>
    match getParameterByContent f.mLocalParameters content t with
    | .error e => .error e
    | .ok (some param) => .ok (param, f)
    | .ok none =>
      let p : Parameter :=
        { pid := f.mNextId, type := t
          name := "lLocalParam_" ++ toString f.mLocalParameters.length
          semantic := semantic, index := index, content := content }
      match Function.addParameter { f with mNextId := f.mNextId + 1 } .localL p with
      | .error e => .error e
      | .ok f2 => .ok (p, f2)

/-- void Function::addAtomInstance(FunctionAtom* atomInstance): append to the
bucket of the atom's group-execution-order and invalidate the flat cache. -/
def Function.addAtomInstance (f : Function) (a : FunctionAtom) : Function :=
  { f with
    mAtomInstances := mapInsertAtom f.mAtomInstances a.groupExecutionOrder a
    mSortedAtomInstances := [] }

/-- bool Function::deleteAtomInstance(FunctionAtom* atomInstance): scan the
bucket of the atom's group (default-constructing it when absent); on a hit
erase the atom, invalidate the flat cache and report true, else report false
without touching the cache. -/
def Function.deleteAtomInstance (f : Function) (a : FunctionAtom) : Function × Bool :=
  let r := mapDeleteAtom f.mAtomInstances a.groupExecutionOrder a
  if r.2 then
    ({ f with mAtomInstances := r.1, mSortedAtomInstances := [] }, true)
  else
    ({ f with mAtomInstances := r.1 }, false)

/-- const FunctionAtomInstanceList& Function::getAtomInstances(): return the
cache when it is non-empty, else rebuild it by concatenating the buckets in
ascending group order. Returns the list together with the successor state
(the cache write is a mutation of the Function). -/
def Function.getAtomInstances (f : Function) : List FunctionAtom × Function :=
  if f.mSortedAtomInstances.isEmpty then
    let l := flattenAtoms f.mAtomInstances
    (l, { f with mSortedAtomInstances := l })
  else (f.mSortedAtomInstances, f)

/-- Well-formedness of the atom container as maintained by the operations:
every bucket holds atoms of its own group, keys are strictly ascending, and
the cache is either invalidated (empty) or equal to the flattening. -/
def bucketsWF : AtomMap → Bool
  | [] => true
  | (k, l) :: rest =>
    l.all (fun a => a.groupExecutionOrder = k) &&
    rest.all (fun kl => k < kl.1) &&
    bucketsWF rest

/-- Whole-state atom well-formedness. -/
def Function.atomsWF (f : Function) : Bool :=
  bucketsWF f.mAtomInstances &&
  (f.mSortedAtomInstances.isEmpty || f.mSortedAtomInstances = flattenAtoms f.mAtomInstances)

/-! ## Concrete instances used by witnesses and counterexamples -/

def c5p : Parameter :=
  { pid := 0, type := GCT_FLOAT2, name := "u0", semantic := SPS_TEXTURE_COORDINATES
    index := 0, content := SPC_UNKNOWN }

def c5f : Function :=
  { emptyFunction "F" with mInputParameters := [c5p] }

def c5g : Function :=
  { emptyFunction "G" with mOutputParameters := [c5p] }

def c6f2 : Function :=
  { emptyFunction "F" with mInputParameters := [c5p] }

def c10p : Parameter :=
  { pid := 0, type := GCT_FLOAT3, name := "n0", semantic := SPS_NORMAL
    index := 2, content := SPC_NORMAL_OBJECT_SPACE }

def c10f : Function :=
  { emptyFunction "F" with mInputParameters := [c10p] }

def c10uq : Parameter :=
  { pid := 0, type := GCT_FLOAT2, name := "weird", semantic := SPS_UNKNOWN
    index := 7, content := SPC_TEXTURE_COORDINATE0 }

def c10uf : Function :=
  { emptyFunction "F" with mInputParameters := [c10uq] }

def c2p : Parameter :=
  { pid := 0, type := GCT_FLOAT2, name := "iTexcoord_0", semantic := SPS_TEXTURE_COORDINATES
    index := 0, content := SPC_TEXTURE_COORDINATE0 }

def c2f1 : Function :=
  { emptyFunction "F" with mInputParameters := [c2p], mNextId := 1 }

def c2cp : Parameter := ParameterFactory.createInPosition 0 0

def c2cf1 : Function :=
  { emptyFunction "F" with mInputParameters := [c2cp], mNextId := 1 }

def c3p2 : Parameter :=
  { pid := 1, type := GCT_FLOAT2, name := "iTexcoord_1", semantic := SPS_TEXTURE_COORDINATES
    index := 1, content := SPC_TEXTURE_COORDINATE1 }

def c3f2 : Function :=
  { emptyFunction "F" with mInputParameters := [c2p, c3p2], mNextId := 2 }

def c4on : Parameter :=
  { pid := 0, type := GCT_FLOAT3, name := "oNormal_0", semantic := SPS_NORMAL
    index := 0, content := SPC_NORMAL_OBJECT_SPACE }

def c4f : Function :=
  { emptyFunction "F" with mOutputParameters := [c4on] }

def c4q : Parameter :=
  { pid := 0, type := GCT_FLOAT4, name := "someOut", semantic := SPS_POSITION
    index := 0, content := SPC_POSITION_PROJECTIVE_SPACE }

def c4cf : Function :=
  { emptyFunction "F" with mOutputParameters := [c4q] }

/-- The table of content roles from which a type can be derived. -/
def derivableContents : List Content :=
  [SPC_COLOR_DIFFUSE, SPC_COLOR_SPECULAR, SPC_POSITION_PROJECTIVE_SPACE,
   SPC_POSITION_WORLD_SPACE, SPC_POSITION_OBJECT_SPACE, SPC_NORMAL_TANGENT_SPACE,
   SPC_NORMAL_OBJECT_SPACE, SPC_NORMAL_WORLD_SPACE, SPC_POINTSPRITE_SIZE]

def c8p0 : Parameter :=
  { pid := 0, type := GCT_FLOAT4, name := "lLocalParam_0", semantic := SPS_UNKNOWN
    index := 0, content := SPC_COLOR_DIFFUSE }

def c8f1 : Function :=
  { emptyFunction "F" with mLocalParameters := [c8p0], mNextId := 1 }

def c8p1 : Parameter :=
  { pid := 1, type := GCT_FLOAT3, name := "lLocalParam_1", semantic := SPS_UNKNOWN
    index := 0, content := SPC_NORMAL_WORLD_SPACE }

def c8f2 : Function :=
  { emptyFunction "F" with mLocalParameters := [c8p0, c8p1], mNextId := 2 }

def c1f : Function :=
  { emptyFunction "A" with
    mAtomInstances := [(2, [⟨1, 2⟩]), (5, [⟨0, 5⟩, ⟨2, 5⟩])] }

/-! ## Shared lemmas -/

theorem getParameterByContent_known (l : List Parameter) (c : Content) (t : GpuConstantType)
    (hc : c ≠ SPC_UNKNOWN) (ht : t ≠ GCT_UNKNOWN) :
    getParameterByContent l c t = .ok (findByContentType l c t) := by
  unfold getParameterByContent
  rw [if_neg ht]
  simp [hc]

theorem findByContentType_append_of_none (l1 l2 : List Parameter) (c : Content)
    (t : GpuConstantType) (h : findByContentType l1 c t = none) :
    findByContentType (l1 ++ l2) c t = findByContentType l2 c t := by
  induction l1 with
  | nil => rfl
  | cons p rest ih =>
    have hstep : (if p.content = c ∧ p.type = t then some p else findByContentType rest c t) = none := h
    have step : findByContentType ((p :: rest) ++ l2) c t =
        if p.content = c ∧ p.type = t then some p else findByContentType (rest ++ l2) c t := rfl
    by_cases hp : p.content = c ∧ p.type = t
    · rw [if_pos hp] at hstep
      exact absurd hstep (by simp)
    · rw [if_neg hp] at hstep
      rw [step, if_neg hp]
      exact ih hstep

theorem countSemantic_append (l1 l2 : List Parameter) (s : Semantic) :
    countSemantic (l1 ++ l2) s = countSemantic l1 s + countSemantic l2 s := by
  induction l1 with
  | nil => simp [countSemantic]
  | cons p rest ih =>
    have step : countSemantic ((p :: rest) ++ l2) s =
        (if p.semantic = s then 1 else 0) + countSemantic (rest ++ l2) s := rfl
    have step2 : countSemantic (p :: rest) s =
        (if p.semantic = s then 1 else 0) + countSemantic rest s := rfl
    rw [step, step2, ih]
    omega

theorem addParameter_ok (f : Function) (w : WhichList) (p : Parameter) (f2 : Function)
    (h : f.addParameter w p = .ok f2) :
    f2 = f.withList w (f.getList w ++ [p]) := by
  unfold Function.addParameter at h
  split_ifs at h
  exact (Except.ok.injEq _ _).mp h |>.symm

theorem addInputParameter_ok (f : Function) (p : Parameter) (f2 : Function)
    (h : f.addInputParameter p = .ok f2) :
    f2.mInputParameters = f.mInputParameters ++ [p] ∧
    f2.mOutputParameters = f.mOutputParameters ∧
    f2.mLocalParameters = f.mLocalParameters ∧
    f2.mName = f.mName := by
  unfold Function.addInputParameter at h
  split_ifs at h
  have := addParameter_ok f .inputL p f2 h
  subst this
  simp [Function.withList, Function.getList]

theorem addOutputParameter_ok (f : Function) (p : Parameter) (f2 : Function)
    (h : f.addOutputParameter p = .ok f2) :
    f2.mOutputParameters = f.mOutputParameters ++ [p] ∧
    f2.mInputParameters = f.mInputParameters ∧
    f2.mLocalParameters = f.mLocalParameters ∧
    f2.mName = f.mName := by
  unfold Function.addOutputParameter at h
  split_ifs at h
  have := addParameter_ok f .outputL p f2 h
  subst this
  simp [Function.withList, Function.getList]

theorem createInputBySemantic_some (f : Function) (s : Semantic) (i : Int) (c : Content)
    (t : GpuConstantType) (p : Parameter) (h : f.createInputBySemantic s i c t none = some p) :
    p.semantic = s ∧ p.index = i ∧ p.pid = f.mNextId := by
  cases s <;>
    simp only [Function.createInputBySemantic, ParameterFactory.createInPosition,
      ParameterFactory.createInWeights, ParameterFactory.createInIndices,
      ParameterFactory.createInNormal, ParameterFactory.createInColor,
      ParameterFactory.createInTexcoord, ParameterFactory.createInBiNormal,
      ParameterFactory.createInTangent, Option.some.injEq, reduceCtorEq] at h <;>
    subst h <;> simp

theorem getParameterBySemantic_some (l : List Parameter) (s : Semantic) (i : Int)
    (p : Parameter) (h : getParameterBySemantic l s i = some p) :
    p.semantic = s ∧ p.index = i := by
  induction l with
  | nil => exact absurd h (by simp [getParameterBySemantic])
  | cons q rest ih =>
    unfold getParameterBySemantic at h
    by_cases hq : q.semantic = s ∧ q.index = i
    · rw [if_pos hq] at h
      have : q = p := by injection h
      rw [← this]
      exact hq
    · rw [if_neg hq] at h
      exact ih h

theorem createInputBySemantic_carried (f : Function) (s : Semantic) (i : Int) (c : Content)
    (t : GpuConstantType) (q p : Parameter) (hqs : q.semantic = s) (hqi : q.index = i)
    (h : f.createInputBySemantic s i c t (some q) = some p) :
    p.semantic = s ∧ p.index = i := by
  cases s <;>
    simp only [Function.createInputBySemantic, ParameterFactory.createInPosition,
      ParameterFactory.createInWeights, ParameterFactory.createInIndices,
      ParameterFactory.createInNormal, ParameterFactory.createInColor,
      ParameterFactory.createInTexcoord, ParameterFactory.createInBiNormal,
      ParameterFactory.createInTangent, Option.some.injEq] at h <;>
    first
    | (subst h; simp)
    | (rw [← h]; exact ⟨hqs, hqi⟩)

theorem resolveInput_reduce_neg1 (f : Function) (semantic : Semantic) (content : Content)
    (type : GpuConstantType)
    (hc : getParameterByContent f.mInputParameters content type = .ok none) :
    f.resolveInputParameter semantic (-1) content type =
      f.finishResolveInput (f.createInputBySemantic semantic
        (Int.ofNat (countSemantic f.mInputParameters semantic)) content type none) := by
  unfold Function.resolveInputParameter
  rw [hc]
  rfl

theorem finishResolveInput_some_reduce (f : Function) (p2 : Parameter) :
    f.finishResolveInput (some p2) =
      (match Function.addInputParameter { f with mNextId := f.mNextId + 1 } p2 with
       | .error e => .error e
       | .ok f3 => .ok (some p2, f3)) := rfl

theorem resolveLocal_reduce (f : Function) (semantic : Semantic) (index : Int)
    (content : Content) (type : GpuConstantType) (t : GpuConstantType)
    (hty : (if type = GCT_UNKNOWN then typeFromContent content else .ok type) = .ok t) :
    f.resolveLocalParameter semantic index content type =
      (match getParameterByContent f.mLocalParameters content t with
       | .error e => .error e
       | .ok (some param) => .ok (param, f)
       | .ok none =>
         match Function.addParameter { f with mNextId := f.mNextId + 1 } .localL
             { pid := f.mNextId, type := t
               name := "lLocalParam_" ++ toString f.mLocalParameters.length
               semantic := semantic, index := index, content := content } with
         | .error e => .error e
         | .ok f3 => .ok ({ pid := f.mNextId, type := t
                            name := "lLocalParam_" ++ toString f.mLocalParameters.length
                            semantic := semantic, index := index, content := content }, f3)) := by
  unfold Function.resolveLocalParameter
  rw [hty]

theorem finishResolveInput_dup (f : Function) (p2 : Parameter)
    (hq : (getParameterBySemantic f.mInputParameters p2.semantic p2.index).isSome) :
    f.finishResolveInput (some p2) =
      .error (duplicateSemanticErr p2.name f.mName "Function::addInputParameter") := by
  unfold Function.finishResolveInput Function.addInputParameter
  simp only [if_pos hq]

/-! ## Claim theorems -/

/-- C5: when the content-based lookup finds nothing and the caller passes an
explicit index at which the input list already holds a parameter of matching
content, resolveInputParameter returns that parameter if its type matches the
request, and otherwise throws the invalid-parameter type-mismatch error whose
description carries the function name, the semantic and the index; the same
holds for resolveOutputParameter over the output list. On the error path no
state mutation has happened (the throw precedes every registration). -/
theorem C5_explicit_index_content_match (f : Function) (semantic : Semantic) (index : Int)
    (content : Content) (type : GpuConstantType) (p : Parameter)
    (h1 : getParameterByContent f.mInputParameters content type = .ok none)
    (h2 : index ≠ -1)
    (h3 : getParameterBySemantic f.mInputParameters semantic index = some p)
    (h4 : p.content = content)
    (g : Function) (semantic2 : Semantic) (index2 : Int) (content2 : Content)
    (type2 : GpuConstantType) (q : Parameter)
    (k1 : getParameterByContent g.mOutputParameters content2 type2 = .ok none)
    (k2 : index2 ≠ -1)
    (k3 : getParameterBySemantic g.mOutputParameters semantic2 index2 = some q)
    (k4 : q.content = content2) :
    (p.type = type → f.resolveInputParameter semantic index content type = .ok (some p, f)) ∧
    (p.type ≠ type → f.resolveInputParameter semantic index content type =
       .error (resolveMismatchErr f.mName semantic index "Function::resolveInputParameter")) ∧
    (q.type = type2 → g.resolveOutputParameter semantic2 index2 content2 type2 = .ok (some q, g)) ∧
    (q.type ≠ type2 → g.resolveOutputParameter semantic2 index2 content2 type2 =
       .error (resolveMismatchErr g.mName semantic2 index2 "Function::resolveOutputParameter")) := by
  have hin : f.resolveInputParameter semantic index content type =
      (if p.type = type then .ok (some p, f)
       else .error (resolveMismatchErr f.mName semantic index "Function::resolveInputParameter")) := by
    unfold Function.resolveInputParameter
    rw [h1]
    simp only [if_neg h2, h3, if_pos h4]
  have hout : g.resolveOutputParameter semantic2 index2 content2 type2 =
      (if q.type = type2 then .ok (some q, g)
       else .error (resolveMismatchErr g.mName semantic2 index2 "Function::resolveOutputParameter")) := by
    unfold Function.resolveOutputParameter
    rw [k1]
    simp only [if_neg k2, k3, if_pos k4]
  refine ⟨fun h => ?_, fun h => ?_, fun h => ?_, fun h => ?_⟩
  · rw [hin, if_pos h]
  · rw [hin, if_neg h]
  · rw [hout, if_pos h]
  · rw [hout, if_neg h]

theorem C5_witness :
    getParameterBySemantic c5f.mInputParameters SPS_TEXTURE_COORDINATES 0 = some c5p ∧
    c5f.resolveInputParameter SPS_TEXTURE_COORDINATES 0 SPC_UNKNOWN GCT_FLOAT2 = .ok (some c5p, c5f) ∧
    c5g.resolveOutputParameter SPS_TEXTURE_COORDINATES 0 SPC_UNKNOWN GCT_FLOAT3 =
      .error (resolveMismatchErr "G" SPS_TEXTURE_COORDINATES 0 "Function::resolveOutputParameter") := by
  refine ⟨by decide, ?_, ?_⟩
  · exact (C5_explicit_index_content_match c5f SPS_TEXTURE_COORDINATES 0 SPC_UNKNOWN GCT_FLOAT2 c5p
      (by decide) (by decide) (by decide) (by decide)
      c5g SPS_TEXTURE_COORDINATES 0 SPC_UNKNOWN GCT_FLOAT3 c5p
      (by decide) (by decide) (by decide) (by decide)).1 (by decide)
  · exact (C5_explicit_index_content_match c5f SPS_TEXTURE_COORDINATES 0 SPC_UNKNOWN GCT_FLOAT2 c5p
      (by decide) (by decide) (by decide) (by decide)
      c5g SPS_TEXTURE_COORDINATES 0 SPC_UNKNOWN GCT_FLOAT3 c5p
      (by decide) (by decide) (by decide) (by decide)).2.2.2 (by decide)

/-- C6: addInputParameter errors exactly when the input list already holds a
parameter at the same semantic and index, or the input or output list already
holds a parameter of the same name; the name check never consults the local
list (the local list does not occur in the error condition, for any state of
it); on success the parameter is appended at the end of the input list and
the other two lists are untouched. Mirror statement for addOutputParameter. -/
theorem C6_add_parameter_checks (f : Function) (p : Parameter) :
    ((∃ e, f.addInputParameter p = .error e) ↔
        ((getParameterBySemantic f.mInputParameters p.semantic p.index).isSome ∨
         (getParameterByName f.mInputParameters p.name).isSome ∨
         (getParameterByName f.mOutputParameters p.name).isSome)) ∧
    (∀ f2, f.addInputParameter p = .ok f2 →
        f2.mInputParameters = f.mInputParameters ++ [p] ∧
        f2.mOutputParameters = f.mOutputParameters ∧
        f2.mLocalParameters = f.mLocalParameters) ∧
    ((∃ e, f.addOutputParameter p = .error e) ↔
        ((getParameterBySemantic f.mOutputParameters p.semantic p.index).isSome ∨
         (getParameterByName f.mInputParameters p.name).isSome ∨
         (getParameterByName f.mOutputParameters p.name).isSome)) ∧
    (∀ f2, f.addOutputParameter p = .ok f2 →
        f2.mOutputParameters = f.mOutputParameters ++ [p] ∧
        f2.mInputParameters = f.mInputParameters ∧
        f2.mLocalParameters = f.mLocalParameters) := by
  refine ⟨?_, ?_, ?_, ?_⟩
  · unfold Function.addInputParameter Function.addParameter
    split_ifs with ha hb hc <;> simp_all
  · intro f2 h
    obtain ⟨hi, ho, hl, _⟩ := addInputParameter_ok f p f2 h
    exact ⟨hi, ho, hl⟩
  · unfold Function.addOutputParameter Function.addParameter
    split_ifs with ha hb hc <;> simp_all
  · intro f2 h
    obtain ⟨ho, hi, hl, _⟩ := addOutputParameter_ok f p f2 h
    exact ⟨ho, hi, hl⟩

theorem C6_witness :
    (emptyFunction "F").addInputParameter c5p = .ok c6f2 ∧
    c6f2.mInputParameters = (emptyFunction "F").mInputParameters ++ [c5p] := by
  refine ⟨by decide, ?_⟩
  exact ((C6_add_parameter_checks (emptyFunction "F") c5p).2.1 c6f2 (by decide)).1

/-- C9 (amended): provided the content-based lookup itself succeeds (the
requested type is known or the content is in the derivation table) and finds
nothing, and the index is -1 or the exact (unknown-semantic, index) slot of
the target list is empty, resolving with the unknown semantic returns the
empty result and leaves the Function unchanged (nothing gets registered). The
original claim fails otherwise: with an unknown type and an unknown content
the lookup throws instead of the function returning an empty result (see the
counterexample), and an occupied slot is either returned (content and type
match), or raises the type-mismatch error (content match, type differs), or
is carried into addInputParameter/addOutputParameter, which raises the
duplicate-semantic error (content differs). -/
theorem C9_unknown_semantic_amended (f : Function) (index : Int) (content : Content)
    (type : GpuConstantType)
    (h1 : getParameterByContent f.mInputParameters content type = .ok none)
    (h2 : getParameterByContent f.mOutputParameters content type = .ok none)
    (h3 : index = -1 ∨ getParameterBySemantic f.mInputParameters SPS_UNKNOWN index = none)
    (h4 : index = -1 ∨ getParameterBySemantic f.mOutputParameters SPS_UNKNOWN index = none) :
    f.resolveInputParameter SPS_UNKNOWN index content type = .ok (none, f) ∧
    f.resolveOutputParameter SPS_UNKNOWN index content type = .ok (none, f) := by
  constructor
  · unfold Function.resolveInputParameter
    rw [h1]
    by_cases hidx : index = -1
    · simp only [if_pos hidx]
      rfl
    · simp only [if_neg hidx]
      rcases h3 with h3 | h3
      · exact absurd h3 hidx
      · rw [h3]
        rfl
  · unfold Function.resolveOutputParameter
    rw [h2]
    by_cases hidx : index = -1
    · simp only [if_pos hidx]
      rfl
    · simp only [if_neg hidx]
      rcases h4 with h4 | h4
      · exact absurd h4 hidx
      · rw [h4]
        rfl

theorem C9_witness :
    getParameterByContent (emptyFunction "F").mInputParameters SPC_COLOR_DIFFUSE GCT_FLOAT4 = .ok none ∧
    (emptyFunction "F").resolveInputParameter SPS_UNKNOWN (-1) SPC_COLOR_DIFFUSE GCT_FLOAT4 =
      .ok (none, emptyFunction "F") := by
  refine ⟨by decide, ?_⟩
  exact (C9_unknown_semantic_amended (emptyFunction "F") (-1) SPC_COLOR_DIFFUSE GCT_FLOAT4
    (by decide) (by decide) (Or.inl rfl) (Or.inl rfl)).1

theorem C9_counterexample :
    (emptyFunction "F").resolveInputParameter SPS_UNKNOWN 0 SPC_UNKNOWN GCT_UNKNOWN =
      .error deriveTypeErr ∧
    (emptyFunction "F").resolveOutputParameter SPS_UNKNOWN 0 SPC_UNKNOWN GCT_UNKNOWN =
      .error deriveTypeErr := by decide

/-- C10: with no (content, type) match in the input list, an explicit index,
and an occupant of the exact (semantic, index) slot whose content differs from
the request, resolveInputParameter does not return the occupant: the creation
switch yields a parameter at the same (semantic, index) — a fresh one for
every creatable semantic, the carried occupant itself for the unknown
semantic, whose switch arm leaves the param variable untouched — and
addInputParameter throws the duplicate-semantic invalid-parameter error
before any registration, so the input list is left unchanged (the throw model
returns no successor state). -/
theorem C10_duplicate_slot_error (f : Function) (semantic : Semantic) (index : Int)
    (content : Content) (type : GpuConstantType) (q : Parameter)
    (hmiss : getParameterByContent f.mInputParameters content type = .ok none)
    (hidx : index ≠ -1)
    (hq : getParameterBySemantic f.mInputParameters semantic index = some q)
    (hqc : q.content ≠ content) :
    ∃ p2, f.createInputBySemantic semantic index content type (some q) = some p2 ∧
      p2.semantic = semantic ∧ p2.index = index ∧
      f.resolveInputParameter semantic index content type =
        .error (duplicateSemanticErr p2.name f.mName "Function::addInputParameter") := by
  have hred : f.resolveInputParameter semantic index content type =
      f.finishResolveInput (f.createInputBySemantic semantic index content type (some q)) := by
    unfold Function.resolveInputParameter
    rw [hmiss]
    simp only [if_neg hidx, hq, if_neg hqc]
  obtain ⟨hqs, hqi⟩ := getParameterBySemantic_some f.mInputParameters semantic index q hq
  obtain ⟨p2, hp2⟩ :
      ∃ p2, f.createInputBySemantic semantic index content type (some q) = some p2 := by
    cases semantic <;> exact ⟨_, rfl⟩
  obtain ⟨hsem, hind⟩ := createInputBySemantic_carried f semantic index content type q p2
    hqs hqi hp2
  refine ⟨p2, hp2, hsem, hind, ?_⟩
  rw [hred, hp2]
  apply finishResolveInput_dup
  rw [hsem, hind, hq]
  rfl

theorem C10_witness :
    getParameterBySemantic c10f.mInputParameters SPS_NORMAL 2 = some c10p ∧
    c10f.resolveInputParameter SPS_NORMAL 2 SPC_NORMAL_WORLD_SPACE GCT_FLOAT3 =
      .error (duplicateSemanticErr "iNormal_2" "F" "Function::addInputParameter") ∧
    (emptyFunction "F").addInputParameter c10uq = .ok c10uf ∧
    c10uf.resolveInputParameter SPS_UNKNOWN 7 SPC_TEXTURE_COORDINATE1 GCT_FLOAT2 =
      .error (duplicateSemanticErr "weird" "F" "Function::addInputParameter") := by
  refine ⟨by decide, ?_, by decide, ?_⟩
  · obtain ⟨p2, hp2, -, -, herr⟩ := C10_duplicate_slot_error c10f SPS_NORMAL 2
      SPC_NORMAL_WORLD_SPACE GCT_FLOAT3 c10p (by decide) (by decide) (by decide) (by decide)
    have hred : some (ParameterFactory.createInNormal c10f.mNextId 2) = some p2 := hp2
    have hname : p2.name = "iNormal_2" := by
      rw [← Option.some.inj hred]
      rfl
    rw [herr, hname]
    rfl
  · obtain ⟨p2, hp2, -, -, herr⟩ := C10_duplicate_slot_error c10uf SPS_UNKNOWN 7
      SPC_TEXTURE_COORDINATE1 GCT_FLOAT2 c10uq (by decide) (by decide) (by decide) (by decide)
    have hred : some c10uq = some p2 := hp2
    have hname : p2.name = "weird" := by
      rw [← Option.some.inj hred]
      rfl
    rw [herr, hname]
    rfl

/-- C2 (amended): whenever a resolveInputParameter call creates and registers a
parameter that carries the requested content and a known requested type (as
the factory guarantees for the texture-coordinates semantic, whose constructor
passes type and content through), every subsequent call requesting the same
content and type returns that identical instance and leaves the state
untouched, regardless of the semantic and index arguments of the later call,
including index -1: the content-based lookup finds it first and
short-circuits. The original universally quantified claim fails for the
fixed-content semantics, whose factory constructor ignores the requested
content: a repeated identical call can then throw a duplicate-semantic error
instead of returning the created instance (see the counterexample). -/
theorem C2_resolve_idempotent_amended (f : Function) (semantic : Semantic) (index : Int)
    (content : Content) (type : GpuConstantType) (p : Parameter) (f2 : Function)
    (hc : content ≠ SPC_UNKNOWN) (ht : type ≠ GCT_UNKNOWN)
    (hmiss : findByContentType f.mInputParameters content type = none)
    (_hfirst : f.resolveInputParameter semantic index content type = .ok (some p, f2))
    (hnew : f2.mInputParameters = f.mInputParameters ++ [p])
    (hpc : p.content = content) (hpt : p.type = type) :
    ∀ (semantic2 : Semantic) (index2 : Int),
      f2.resolveInputParameter semantic2 index2 content type = .ok (some p, f2) := by
  intro semantic2 index2
  unfold Function.resolveInputParameter
  rw [getParameterByContent_known f2.mInputParameters content type hc ht, hnew,
    findByContentType_append_of_none _ _ _ _ hmiss]
  have hp : findByContentType [p] content type = some p := by
    unfold findByContentType
    rw [if_pos ⟨hpc, hpt⟩]
  rw [hp]

theorem C2_witness :
    (emptyFunction "F").resolveInputParameter SPS_TEXTURE_COORDINATES (-1)
      SPC_TEXTURE_COORDINATE0 GCT_FLOAT2 = .ok (some c2p, c2f1) ∧
    c2f1.resolveInputParameter SPS_POSITION 5 SPC_TEXTURE_COORDINATE0 GCT_FLOAT2 =
      .ok (some c2p, c2f1) ∧
    c2f1.resolveInputParameter SPS_TEXTURE_COORDINATES (-1) SPC_TEXTURE_COORDINATE0 GCT_FLOAT2 =
      .ok (some c2p, c2f1) := by
  refine ⟨by decide, ?_, ?_⟩
  · exact C2_resolve_idempotent_amended (emptyFunction "F") SPS_TEXTURE_COORDINATES (-1)
      SPC_TEXTURE_COORDINATE0 GCT_FLOAT2 c2p c2f1 (by decide) (by decide) (by decide)
      (by decide) (by decide) (by decide) (by decide) SPS_POSITION 5
  · exact C2_resolve_idempotent_amended (emptyFunction "F") SPS_TEXTURE_COORDINATES (-1)
      SPC_TEXTURE_COORDINATE0 GCT_FLOAT2 c2p c2f1 (by decide) (by decide) (by decide)
      (by decide) (by decide) (by decide) (by decide) SPS_TEXTURE_COORDINATES (-1)

theorem C2_counterexample :
    (emptyFunction "F").resolveInputParameter SPS_POSITION 0 SPC_POINTSPRITE_SIZE GCT_FLOAT4 =
      .ok (some c2cp, c2cf1) ∧
    c2cf1.resolveInputParameter SPS_POSITION 0 SPC_POINTSPRITE_SIZE GCT_FLOAT4 =
      .error (duplicateSemanticErr "iPos_0" "F" "Function::addInputParameter") := by decide

/-- C3: a resolveInputParameter call with index -1 that creates and registers a
parameter assigns it the index obtained by counting the parameters of the
requested semantic already present in the input list, the created parameter
carries the requested semantic, and the count of that semantic grows by one;
hence successive creating calls for one semantic receive the strictly
increasing gap-free indices 0, 1, 2, and so on. -/
theorem C3_next_free_index (f : Function) (semantic : Semantic) (content : Content)
    (type : GpuConstantType) (p : Parameter) (f2 : Function)
    (h : f.resolveInputParameter semantic (-1) content type = .ok (some p, f2))
    (hnew : f2.mInputParameters = f.mInputParameters ++ [p]) :
    p.index = Int.ofNat (countSemantic f.mInputParameters semantic) ∧
    p.semantic = semantic ∧
    countSemantic f2.mInputParameters semantic = countSemantic f.mInputParameters semantic + 1 := by
  cases hc : getParameterByContent f.mInputParameters content type with
  | error e =>
    unfold Function.resolveInputParameter at h
    rw [hc] at h
    exact absurd h (by simp)
  | ok o =>
    cases o with
    | some r =>
      unfold Function.resolveInputParameter at h
      rw [hc] at h
      simp only [Except.ok.injEq, Prod.mk.injEq] at h
      obtain ⟨-, hf⟩ := h
      rw [← hf] at hnew
      have := congrArg List.length hnew
      simp at this
    | none =>
      rw [resolveInput_reduce_neg1 f semantic content type hc] at h
      cases hcr : f.createInputBySemantic semantic
          (Int.ofNat (countSemantic f.mInputParameters semantic)) content type none with
      | none =>
        rw [hcr] at h
        exact absurd h (by simp [Function.finishResolveInput])
      | some p2 =>
        rw [hcr, finishResolveInput_some_reduce] at h
        cases hadd : Function.addInputParameter { f with mNextId := f.mNextId + 1 } p2 with
        | error e =>
          rw [hadd] at h
          exact absurd h (by simp)
        | ok f3 =>
          rw [hadd] at h
          simp only [Except.ok.injEq, Prod.mk.injEq, Option.some.injEq] at h
          obtain ⟨hp, -⟩ := h
          obtain ⟨hsem, hind, -⟩ := createInputBySemantic_some f semantic
            (Int.ofNat (countSemantic f.mInputParameters semantic)) content type p2 hcr
          subst hp
          refine ⟨hind, hsem, ?_⟩
          rw [hnew, countSemantic_append]
          have hone : countSemantic [p2] semantic = 1 := by
            simp [countSemantic, hsem]
          rw [hone]

theorem C3_witness :
    c2f1.resolveInputParameter SPS_TEXTURE_COORDINATES (-1) SPC_TEXTURE_COORDINATE1 GCT_FLOAT2 =
      .ok (some c3p2, c3f2) ∧
    c3p2.index = Int.ofNat (countSemantic c2f1.mInputParameters SPS_TEXTURE_COORDINATES) ∧
    countSemantic c3f2.mInputParameters SPS_TEXTURE_COORDINATES =
      countSemantic c2f1.mInputParameters SPS_TEXTURE_COORDINATES + 1 := by
  refine ⟨by decide, ?_, ?_⟩
  · exact (C3_next_free_index c2f1 SPS_TEXTURE_COORDINATES SPC_TEXTURE_COORDINATE1 GCT_FLOAT2
      c3p2 c3f2 (by decide) (by decide)).1
  · exact (C3_next_free_index c2f1 SPS_TEXTURE_COORDINATES SPC_TEXTURE_COORDINATE1 GCT_FLOAT2
      c3p2 c3f2 (by decide) (by decide)).2.2

/-- C4 (amended): provided the content-based lookup over the output list
succeeds and finds nothing, and the exact (semantic, index) slot, if the index
is explicit and occupied, holds a different content, resolveOutputParameter
with the blend-weights or blend-indices semantic throws the unsupported
invalid-parameter error (whose index field is the next-free index when the
caller passed -1) and registers nothing. The original claim fails as stated:
when an output parameter matching the requested content and type already
exists, the call returns it without any error even under a blend semantic
(see the counterexample). -/
theorem C4_blend_output_amended (f : Function) (semantic : Semantic) (index : Int)
    (content : Content) (type : GpuConstantType)
    (hsem : semantic = SPS_BLEND_WEIGHTS ∨ semantic = SPS_BLEND_INDICES)
    (hmiss : getParameterByContent f.mOutputParameters content type = .ok none)
    (hslot : index = -1 ∨
      ∀ q, getParameterBySemantic f.mOutputParameters semantic index = some q → q.content ≠ content) :
    f.resolveOutputParameter semantic index content type =
      .error (unsupportedOutputErr f.mName semantic
        (if index = -1 then Int.ofNat (countSemantic f.mOutputParameters semantic) else index)) := by
  have hblend : ∀ (i : Int) (op : Option Parameter),
      f.createOutputBySemantic semantic i content type op =
        .error (unsupportedOutputErr f.mName semantic i) := by
    rcases hsem with h | h <;> subst h <;> intro i op <;> rfl
  unfold Function.resolveOutputParameter
  rw [hmiss]
  by_cases hidx : index = -1
  · simp only [if_pos hidx, hblend]
  · simp only [if_neg hidx]
    rcases hslot with h | h
    · exact absurd h hidx
    · cases heq : getParameterBySemantic f.mOutputParameters semantic index with
      | none => simp only [hblend]
      | some q => simp only [if_neg (h q heq), hblend]

theorem C4_witness :
    getParameterByContent c4f.mOutputParameters SPC_COLOR_SPECULAR GCT_FLOAT4 = .ok none ∧
    c4f.resolveOutputParameter SPS_BLEND_WEIGHTS (-1) SPC_COLOR_SPECULAR GCT_FLOAT4 =
      .error (unsupportedOutputErr "F" SPS_BLEND_WEIGHTS 0) := by
  refine ⟨by decide, ?_⟩
  have := C4_blend_output_amended c4f SPS_BLEND_WEIGHTS (-1) SPC_COLOR_SPECULAR GCT_FLOAT4
    (Or.inl rfl) (by decide) (Or.inl rfl)
  rw [this]
  rfl

theorem C4_counterexample :
    (emptyFunction "F").addOutputParameter c4q = .ok c4cf ∧
    c4cf.resolveOutputParameter SPS_BLEND_WEIGHTS 3 SPC_POSITION_PROJECTIVE_SPACE GCT_FLOAT4 =
      .ok (some c4q, c4cf) := by decide

theorem typeFromContent_ne_unknown (c : Content) (t : GpuConstantType)
    (h : typeFromContent c = .ok t) : t ≠ GCT_UNKNOWN := by
  revert h
  revert t
  revert c
  decide

/-- C7: with an unknown requested element type, the type is derived from the
content deterministically per the fixed table (diffuse and specular colors and
the three position spaces give the 4-float type, the three normal spaces give
the 3-float type, point-sprite size gives the 1-float type), any content role
outside the table makes the derivation throw, the content-based lookup
propagates that error rather than falling back to a default type, and for a
derivable content the lookup behaves exactly as with the derived type made
explicit. -/
theorem C7_type_from_content :
    typeFromContent SPC_COLOR_DIFFUSE = .ok GCT_FLOAT4 ∧
    typeFromContent SPC_COLOR_SPECULAR = .ok GCT_FLOAT4 ∧
    typeFromContent SPC_POSITION_PROJECTIVE_SPACE = .ok GCT_FLOAT4 ∧
    typeFromContent SPC_POSITION_WORLD_SPACE = .ok GCT_FLOAT4 ∧
    typeFromContent SPC_POSITION_OBJECT_SPACE = .ok GCT_FLOAT4 ∧
    typeFromContent SPC_NORMAL_TANGENT_SPACE = .ok GCT_FLOAT3 ∧
    typeFromContent SPC_NORMAL_OBJECT_SPACE = .ok GCT_FLOAT3 ∧
    typeFromContent SPC_NORMAL_WORLD_SPACE = .ok GCT_FLOAT3 ∧
    typeFromContent SPC_POINTSPRITE_SIZE = .ok GCT_FLOAT1 ∧
    (∀ c : Content, c ∉ derivableContents → typeFromContent c = .error deriveTypeErr) ∧
    (∀ (l : List Parameter) (c : Content) (e : OgreException),
        typeFromContent c = .error e → getParameterByContent l c GCT_UNKNOWN = .error e) ∧
    (∀ (l : List Parameter) (c : Content) (t : GpuConstantType),
        typeFromContent c = .ok t →
          getParameterByContent l c GCT_UNKNOWN = getParameterByContent l c t) := by
  refine ⟨rfl, rfl, rfl, rfl, rfl, rfl, rfl, rfl, rfl, by decide, ?_, ?_⟩
  · intro l c e h
    unfold getParameterByContent
    simp only [reduceIte, h]
  · intro l c t h
    have ht : t ≠ GCT_UNKNOWN := typeFromContent_ne_unknown c t h
    unfold getParameterByContent
    simp only [reduceIte, h, if_neg ht]

theorem C7_witness :
    (SPC_BLEND_WEIGHTS ∉ derivableContents ∧
      typeFromContent SPC_BLEND_WEIGHTS = .error deriveTypeErr) ∧
    getParameterByContent [] SPC_BLEND_WEIGHTS GCT_UNKNOWN = .error deriveTypeErr ∧
    getParameterByContent [] SPC_COLOR_DIFFUSE GCT_UNKNOWN =
      getParameterByContent [] SPC_COLOR_DIFFUSE GCT_FLOAT4 := by
  refine ⟨⟨by decide, ?_⟩, ?_, ?_⟩
  · exact C7_type_from_content.2.2.2.2.2.2.2.2.2.1 SPC_BLEND_WEIGHTS (by decide)
  · exact C7_type_from_content.2.2.2.2.2.2.2.2.2.2.1 [] SPC_BLEND_WEIGHTS deriveTypeErr (by decide)
  · exact C7_type_from_content.2.2.2.2.2.2.2.2.2.2.2 [] SPC_COLOR_DIFFUSE GCT_FLOAT4 (by decide)

/-- C8: when resolveLocalParameter by content creates a parameter (the state
changed), the new parameter is named lLocalParam_ followed by the count of
local parameters at call time and is appended to the local list; and no delete
operation of the public surface touches the local list (there is no local
delete), so that count never decreases and a synthesized name is never reused:
on a fresh Function the first creating call yields lLocalParam_0 and a second
creating call yields lLocalParam_1. -/
theorem C8_local_param_naming (f : Function) (semantic : Semantic) (index : Int)
    (content : Content) (type : GpuConstantType) (p : Parameter) (f2 : Function)
    (h : f.resolveLocalParameter semantic index content type = .ok (p, f2))
    (hnew : f2.mLocalParameters ≠ f.mLocalParameters) :
    p.name = "lLocalParam_" ++ toString f.mLocalParameters.length ∧
    f2.mLocalParameters = f.mLocalParameters ++ [p] ∧
    (∀ q, (f.deleteInputParameter q).mLocalParameters = f.mLocalParameters) ∧
    (∀ q, (f.deleteOutputParameter q).mLocalParameters = f.mLocalParameters) ∧
    (f.deleteAllInputParameters).mLocalParameters = f.mLocalParameters ∧
    (f.deleteAllOutputParameters).mLocalParameters = f.mLocalParameters := by
  have hdel : (∀ q, (f.deleteInputParameter q).mLocalParameters = f.mLocalParameters) ∧
      (∀ q, (f.deleteOutputParameter q).mLocalParameters = f.mLocalParameters) ∧
      (f.deleteAllInputParameters).mLocalParameters = f.mLocalParameters ∧
      (f.deleteAllOutputParameters).mLocalParameters = f.mLocalParameters :=
    ⟨fun _ => rfl, fun _ => rfl, rfl, rfl⟩
  cases hty : (if type = GCT_UNKNOWN then typeFromContent content else .ok type) with
  | error e =>
    unfold Function.resolveLocalParameter at h
    rw [hty] at h
    exact absurd h (by simp)
  | ok t =>
    rw [resolveLocal_reduce f semantic index content type t hty] at h
    cases hc : getParameterByContent f.mLocalParameters content t with
    | error e =>
      rw [hc] at h
      exact absurd h (by simp)
    | ok o =>
      rw [hc] at h
      cases o with
      | some r =>
        simp only [Except.ok.injEq, Prod.mk.injEq] at h
        obtain ⟨-, hf⟩ := h
        rw [← hf] at hnew
        exact absurd rfl hnew
      | none =>
        cases hadd : Function.addParameter { f with mNextId := f.mNextId + 1 } .localL
            { pid := f.mNextId, type := t
              name := "lLocalParam_" ++ toString f.mLocalParameters.length
              semantic := semantic, index := index, content := content } with
        | error e =>
          rw [hadd] at h
          exact absurd h (by simp)
        | ok f3 =>
          rw [hadd] at h
          simp only [Except.ok.injEq, Prod.mk.injEq] at h
          obtain ⟨hp, hf⟩ := h
          have hlist := addParameter_ok _ .localL _ f3 hadd
          subst hf
          subst hlist
          exact ⟨by rw [← hp], by rw [← hp]; rfl, hdel⟩

theorem C8_witness :
    (emptyFunction "F").resolveLocalParameter SPS_UNKNOWN 0 SPC_COLOR_DIFFUSE GCT_UNKNOWN =
      .ok (c8p0, c8f1) ∧
    c8p0.name = "lLocalParam_" ++ toString (emptyFunction "F").mLocalParameters.length ∧
    c8f1.resolveLocalParameter SPS_UNKNOWN 0 SPC_NORMAL_WORLD_SPACE GCT_UNKNOWN =
      .ok (c8p1, c8f2) ∧
    c8p1.name = "lLocalParam_" ++ toString c8f1.mLocalParameters.length := by
  refine ⟨by decide, ?_, by decide, ?_⟩
  · exact (C8_local_param_naming (emptyFunction "F") SPS_UNKNOWN 0 SPC_COLOR_DIFFUSE GCT_UNKNOWN
      c8p0 c8f1 (by decide) (by decide)).1
  · exact (C8_local_param_naming c8f1 SPS_UNKNOWN 0 SPC_NORMAL_WORLD_SPACE GCT_UNKNOWN
      c8p1 c8f2 (by decide) (by decide)).1

/-! ## Atom container lemmas -/

theorem bucketsWF_cons (k : Nat) (l : List FunctionAtom) (rest : AtomMap)
    (h : bucketsWF ((k, l) :: rest) = true) :
    (∀ x ∈ l, x.groupExecutionOrder = k) ∧ (∀ kl ∈ rest, k < kl.1) ∧ bucketsWF rest = true := by
  simp only [bucketsWF, Bool.and_eq_true, List.all_eq_true, decide_eq_true_eq] at h
  exact ⟨h.1.1, h.1.2, h.2⟩

theorem bucketsWF_cons_intro (k : Nat) (l : List FunctionAtom) (rest : AtomMap)
    (h1 : ∀ x ∈ l, x.groupExecutionOrder = k) (h2 : ∀ kl ∈ rest, k < kl.1)
    (h3 : bucketsWF rest = true) : bucketsWF ((k, l) :: rest) = true := by
  show (l.all (fun a => a.groupExecutionOrder = k) &&
    rest.all (fun kl => k < kl.1) && bucketsWF rest) = true
  simp only [Bool.and_eq_true, List.all_eq_true, decide_eq_true_eq]
  exact ⟨⟨h1, h2⟩, h3⟩

theorem mem_flatten_group (m : AtomMap) (hm : bucketsWF m = true) :
    ∀ y ∈ flattenAtoms m, y.groupExecutionOrder ∈ mapKeys m := by
  induction m with
  | nil => intro y hy; exact absurd hy (by simp [flattenAtoms])
  | cons kl rest ih =>
    obtain ⟨k, l⟩ := kl
    obtain ⟨h1, h2, h3⟩ := bucketsWF_cons k l rest hm
    intro y hy
    rcases List.mem_append.mp hy with hy | hy
    · rw [h1 y hy]
      exact List.mem_cons_self _ _
    · exact List.mem_cons_of_mem _ (ih h3 y hy)

theorem pairwise_flatten (m : AtomMap) (hm : bucketsWF m = true) :
    List.Pairwise (fun x y => x.groupExecutionOrder ≤ y.groupExecutionOrder) (flattenAtoms m) := by
  induction m with
  | nil => exact List.Pairwise.nil
  | cons kl rest ih =>
    obtain ⟨k, l⟩ := kl
    obtain ⟨h1, h2, h3⟩ := bucketsWF_cons k l rest hm
    refine List.pairwise_append.mpr ⟨?_, ih h3, ?_⟩
    · exact List.pairwise_of_forall_mem_list fun x hx y hy => by rw [h1 x hx, h1 y hy]
    · intro x hx y hy
      rw [h1 x hx]
      have hk := mem_flatten_group rest h3 y hy
      rcases List.mem_map.mp hk with ⟨kl2, hkl2, hgrp⟩
      rw [← hgrp]
      exact Nat.le_of_lt (h2 kl2 hkl2)

theorem bucketGet_not_mem (m : AtomMap) (g : Nat) (h : g ∉ mapKeys m) :
    bucketGet m g = [] := by
  induction m with
  | nil => rfl
  | cons kl rest ih =>
    obtain ⟨k, l⟩ := kl
    have hk : ¬g = k := fun he => h (by rw [he]; exact List.mem_cons_self _ _)
    have hrest : g ∉ mapKeys rest := fun he => h (List.mem_cons_of_mem _ he)
    simp only [bucketGet, if_neg hk]
    exact ih hrest

theorem filter_flatten (m : AtomMap) (hm : bucketsWF m = true) (g : Nat) :
    (flattenAtoms m).filter (fun x => x.groupExecutionOrder == g) = bucketGet m g := by
  induction m with
  | nil => rfl
  | cons kl rest ih =>
    obtain ⟨k, l⟩ := kl
    obtain ⟨h1, h2, h3⟩ := bucketsWF_cons k l rest hm
    show (l ++ flattenAtoms rest).filter (fun x => x.groupExecutionOrder == g) =
      if g = k then l else bucketGet rest g
    rw [List.filter_append]
    by_cases hg : g = k
    · subst hg
      have hl : l.filter (fun x => x.groupExecutionOrder == g) = l :=
        List.filter_eq_self.mpr fun x hx => by simp [h1 x hx]
      have hr : (flattenAtoms rest).filter (fun x => x.groupExecutionOrder == g) = [] := by
        apply List.filter_eq_nil_iff.mpr
        intro x hx
        have hk := mem_flatten_group rest h3 x hx
        rcases List.mem_map.mp hk with ⟨kl2, hkl2, hgrp⟩
        have := h2 kl2 hkl2
        simp only [beq_iff_eq]
        omega
      rw [hl, hr, if_pos rfl, List.append_nil]
    · have hl : l.filter (fun x => x.groupExecutionOrder == g) = [] := by
        apply List.filter_eq_nil_iff.mpr
        intro x hx
        simp [h1 x hx, Ne.symm hg]
      rw [hl, List.nil_append, if_neg hg]
      exact ih h3

theorem mapKeys_insert (m : AtomMap) (g : Nat) (a : FunctionAtom) :
    ∀ k ∈ mapKeys (mapInsertAtom m g a), k = g ∨ k ∈ mapKeys m := by
  induction m with
  | nil => intro k hk; simp [mapInsertAtom, mapKeys] at hk; exact Or.inl hk
  | cons kl rest ih =>
    obtain ⟨k0, l⟩ := kl
    intro k hk
    unfold mapInsertAtom at hk
    by_cases h1 : g < k0
    · rw [if_pos h1] at hk
      simp only [mapKeys, List.map_cons, List.mem_cons] at hk
      rcases hk with hk | hk | hk
      · exact Or.inl hk
      · exact Or.inr (by rw [hk]; exact List.mem_cons_self _ _)
      · exact Or.inr (List.mem_cons_of_mem _ (List.mem_map.mpr (by
          rcases List.mem_map.mp hk with ⟨x, hx, he⟩
          exact ⟨x, hx, he⟩)))
    · rw [if_neg h1] at hk
      by_cases h2 : g = k0
      · rw [if_pos h2] at hk
        simp only [mapKeys, List.map_cons, List.mem_cons] at hk
        rcases hk with hk | hk
        · exact Or.inr (by rw [hk]; exact List.mem_cons_self _ _)
        · exact Or.inr (List.mem_cons_of_mem _ hk)
      · rw [if_neg h2] at hk
        simp only [mapKeys, List.map_cons, List.mem_cons] at hk
        rcases hk with hk | hk
        · exact Or.inr (by rw [hk]; exact List.mem_cons_self _ _)
        · rcases ih k hk with hk2 | hk2
          · exact Or.inl hk2
          · exact Or.inr (List.mem_cons_of_mem _ hk2)

theorem bucketsWF_insert (m : AtomMap) (g : Nat) (a : FunctionAtom)
    (ha : a.groupExecutionOrder = g) (hm : bucketsWF m = true) :
    bucketsWF (mapInsertAtom m g a) = true := by
  induction m with
  | nil =>
    simp [mapInsertAtom, bucketsWF, ha]
  | cons kl rest ih =>
    obtain ⟨k0, l⟩ := kl
    obtain ⟨h1, h2, h3⟩ := bucketsWF_cons k0 l rest hm
    unfold mapInsertAtom
    by_cases hlt : g < k0
    · rw [if_pos hlt]
      refine bucketsWF_cons_intro g [a] ((k0, l) :: rest) ?_ ?_ ?_
      · intro x hx
        simp only [List.mem_singleton] at hx
        rw [hx, ha]
      · intro kl2 hkl2
        rcases List.mem_cons.mp hkl2 with hkl2 | hkl2
        · rw [hkl2]
          exact hlt
        · exact Nat.lt_trans hlt (h2 kl2 hkl2)
      · exact hm
    · rw [if_neg hlt]
      by_cases heq : g = k0
      · rw [if_pos heq]
        refine bucketsWF_cons_intro k0 (l ++ [a]) rest ?_ h2 h3
        intro x hx
        rcases List.mem_append.mp hx with hx | hx
        · exact h1 x hx
        · simp only [List.mem_singleton] at hx
          rw [hx, ha, heq]
      · rw [if_neg heq]
        refine bucketsWF_cons_intro k0 l (mapInsertAtom rest g a) h1 ?_ (ih h3)
        intro kl2 hkl2
        rcases mapKeys_insert rest g a kl2.1 (List.mem_map.mpr ⟨kl2, hkl2, rfl⟩) with hk | hk
        · rw [hk]
          omega
        · rcases List.mem_map.mp hk with ⟨kl3, hkl3, he⟩
          have := h2 kl3 hkl3
          omega

theorem bucketGet_insert (m : AtomMap) (g : Nat) (a : FunctionAtom)
    (hm : bucketsWF m = true) :
    bucketGet (mapInsertAtom m g a) g = bucketGet m g ++ [a] := by
  induction m with
  | nil => simp [mapInsertAtom, bucketGet]
  | cons kl rest ih =>
    obtain ⟨k0, l⟩ := kl
    obtain ⟨h1, h2, h3⟩ := bucketsWF_cons k0 l rest hm
    unfold mapInsertAtom
    by_cases hlt : g < k0
    · rw [if_pos hlt]
      have hget : bucketGet ((k0, l) :: rest) g = [] := by
        apply bucketGet_not_mem
        intro hmem
        rcases List.mem_cons.mp hmem with hk | hk
        · omega
        · rcases List.mem_map.mp hk with ⟨kl2, hkl2, he⟩
          have := h2 kl2 hkl2
          omega
      rw [hget]
      simp [bucketGet]
    · rw [if_neg hlt]
      by_cases heq : g = k0
      · rw [if_pos heq]
        simp [bucketGet, heq]
      · rw [if_neg heq]
        show (if g = k0 then l else bucketGet (mapInsertAtom rest g a) g) = _
        rw [if_neg heq]
        show _ = (if g = k0 then l else bucketGet rest g) ++ [a]
        rw [if_neg heq]
        exact ih h3

theorem eraseFirstAtom_mem (l : List FunctionAtom) (a : FunctionAtom)
    (l2 : List FunctionAtom) (h : eraseFirstAtom l a = some l2) :
    ∀ x ∈ l2, x ∈ l := by
  induction l generalizing l2 with
  | nil => exact absurd h (by simp [eraseFirstAtom])
  | cons b rest ih =>
    unfold eraseFirstAtom at h
    by_cases hb : b = a
    · rw [if_pos hb] at h
      have : l2 = rest := by injection h with h2; exact h2.symm
      rw [this]
      exact fun x hx => List.mem_cons_of_mem _ hx
    · rw [if_neg hb] at h
      cases he : eraseFirstAtom rest a with
      | none => rw [he] at h; exact absurd h (by simp)
      | some l3 =>
        rw [he] at h
        have h2 : b :: l3 = l2 := by simpa using h
        rw [← h2]
        intro x hx
        rcases List.mem_cons.mp hx with hx | hx
        · rw [hx]; exact List.mem_cons_self _ _
        · exact List.mem_cons_of_mem _ (ih l3 he x hx)

theorem mapKeys_delete (m : AtomMap) (g : Nat) (a : FunctionAtom) :
    ∀ k ∈ mapKeys (mapDeleteAtom m g a).1, k = g ∨ k ∈ mapKeys m := by
  induction m with
  | nil => intro k hk; simp [mapDeleteAtom, mapKeys] at hk; exact Or.inl hk
  | cons kl rest ih =>
    obtain ⟨k0, l⟩ := kl
    intro k hk
    unfold mapDeleteAtom at hk
    by_cases h1 : g < k0
    · rw [if_pos h1] at hk
      simp only [mapKeys, List.map_cons, List.mem_cons] at hk
      rcases hk with hk | hk | hk
      · exact Or.inl hk
      · exact Or.inr (by rw [hk]; exact List.mem_cons_self _ _)
      · exact Or.inr (List.mem_cons_of_mem _ hk)
    · rw [if_neg h1] at hk
      by_cases h2 : g = k0
      · rw [if_pos h2] at hk
        cases he : eraseFirstAtom l a with
        | some l3 =>
          rw [he] at hk
          simp only [mapKeys, List.map_cons, List.mem_cons] at hk
          rcases hk with hk | hk
          · exact Or.inr (by rw [hk]; exact List.mem_cons_self _ _)
          · exact Or.inr (List.mem_cons_of_mem _ hk)
        | none =>
          rw [he] at hk
          simp only [mapKeys, List.map_cons, List.mem_cons] at hk
          rcases hk with hk | hk
          · exact Or.inr (by rw [hk]; exact List.mem_cons_self _ _)
          · exact Or.inr (List.mem_cons_of_mem _ hk)
      · rw [if_neg h2] at hk
        simp only [mapKeys, List.map_cons, List.mem_cons] at hk
        rcases hk with hk | hk
        · exact Or.inr (by rw [hk]; exact List.mem_cons_self _ _)
        · rcases ih k hk with hk2 | hk2
          · exact Or.inl hk2
          · exact Or.inr (List.mem_cons_of_mem _ hk2)

theorem bucketsWF_delete (m : AtomMap) (g : Nat) (a : FunctionAtom)
    (hm : bucketsWF m = true) :
    bucketsWF (mapDeleteAtom m g a).1 = true := by
  induction m with
  | nil => simp [mapDeleteAtom, bucketsWF]
  | cons kl rest ih =>
    obtain ⟨k0, l⟩ := kl
    obtain ⟨h1, h2, h3⟩ := bucketsWF_cons k0 l rest hm
    unfold mapDeleteAtom
    by_cases hlt : g < k0
    · rw [if_pos hlt]
      refine bucketsWF_cons_intro g [] ((k0, l) :: rest) (by simp) ?_ hm
      intro kl2 hkl2
      rcases List.mem_cons.mp hkl2 with hkl2 | hkl2
      · rw [hkl2]; exact hlt
      · exact Nat.lt_trans hlt (h2 kl2 hkl2)
    · rw [if_neg hlt]
      by_cases heq : g = k0
      · rw [if_pos heq]
        cases he : eraseFirstAtom l a with
        | some l3 =>
          exact bucketsWF_cons_intro k0 l3 rest
            (fun x hx => h1 x (eraseFirstAtom_mem l a l3 he x hx)) h2 h3
        | none =>
          exact bucketsWF_cons_intro k0 l rest h1 h2 h3
      · rw [if_neg heq]
        refine bucketsWF_cons_intro k0 l (mapDeleteAtom rest g a).1 h1 ?_ (ih h3)
        intro kl2 hkl2
        rcases mapKeys_delete rest g a kl2.1 (List.mem_map.mpr ⟨kl2, hkl2, rfl⟩) with hk | hk
        · omega
        · rcases List.mem_map.mp hk with ⟨kl3, hkl3, he⟩
          have := h2 kl3 hkl3
          omega

theorem flatten_delete_not_found (m : AtomMap) (g : Nat) (a : FunctionAtom)
    (h : (mapDeleteAtom m g a).2 = false) :
    flattenAtoms (mapDeleteAtom m g a).1 = flattenAtoms m := by
  induction m with
  | nil => rfl
  | cons kl rest ih =>
    obtain ⟨k0, l⟩ := kl
    unfold mapDeleteAtom at h ⊢
    by_cases h1 : g < k0
    · rw [if_pos h1]
      rfl
    · rw [if_neg h1] at h ⊢
      by_cases h2 : g = k0
      · rw [if_pos h2] at h ⊢
        cases he : eraseFirstAtom l a with
        | some l3 => rw [he] at h; exact absurd h (by simp)
        | none => rfl
      · rw [if_neg h2] at h ⊢
        show l ++ flattenAtoms (mapDeleteAtom rest g a).1 = l ++ flattenAtoms rest
        rw [ih h]

theorem flatten_insert_front (m : AtomMap) (g : Nat) (a : FunctionAtom)
    (h : ∀ k ∈ mapKeys m, g < k) :
    flattenAtoms (mapInsertAtom m g a) = a :: flattenAtoms m := by
  cases m with
  | nil => rfl
  | cons kl rest =>
    obtain ⟨k0, l⟩ := kl
    have : g < k0 := h k0 (List.mem_cons_self _ _)
    unfold mapInsertAtom
    rw [if_pos this]
    rfl

theorem getAtomInstances_fst (f : Function) (hwf : f.atomsWF = true) :
    (f.getAtomInstances).1 = flattenAtoms f.mAtomInstances := by
  unfold Function.getAtomInstances
  by_cases h : f.mSortedAtomInstances.isEmpty
  · rw [if_pos h]
  · rw [if_neg h]
    simp only [Function.atomsWF, Bool.and_eq_true, Bool.or_eq_true, decide_eq_true_eq] at hwf
    rcases hwf.2 with h2 | h2
    · exact absurd h2 h
    · exact h2

theorem getAtomInstances_memo (f : Function) :
    (f.getAtomInstances).2.getAtomInstances = f.getAtomInstances := by
  unfold Function.getAtomInstances
  by_cases h : f.mSortedAtomInstances.isEmpty
  · rw [if_pos h]
    by_cases h2 : (flattenAtoms f.mAtomInstances).isEmpty
    · have he : flattenAtoms f.mAtomInstances = [] := List.isEmpty_iff.mp h2
      simp [he]
    · simp [h2]
  · rw [if_neg h]
    simp [h]

/-- C1: under the container invariant (buckets hold their own group's atoms in
registration order under strictly ascending keys, cache empty or valid),
getAtomInstances returns the concatenation of the buckets in ascending
group-execution order — the returned sequence is monotone in group order and
its restriction to one group is exactly that group's bucket, to whose end
addAtomInstance appends — the memo is returned as-is by a repeated call,
addAtomInstance and a successful deleteAtomInstance invalidate it, both
operations preserve the invariant, and a retrieval right after inserting an
atom with a strictly smaller group order than every existing bucket places
that atom ahead of the whole previous sequence. -/
theorem C1_atom_order_and_memo (f : Function) (a : FunctionAtom)
    (hwf : f.atomsWF = true) :
    (f.getAtomInstances).1 = flattenAtoms f.mAtomInstances ∧
    List.Pairwise (fun x y => x.groupExecutionOrder ≤ y.groupExecutionOrder)
      (f.getAtomInstances).1 ∧
    (∀ g, (f.getAtomInstances).1.filter (fun x => x.groupExecutionOrder == g) =
      bucketGet f.mAtomInstances g) ∧
    bucketGet (f.addAtomInstance a).mAtomInstances a.groupExecutionOrder =
      bucketGet f.mAtomInstances a.groupExecutionOrder ++ [a] ∧
    (f.addAtomInstance a).mSortedAtomInstances = [] ∧
    (∀ b, (f.deleteAtomInstance b).2 = true →
      ((f.deleteAtomInstance b).1).mSortedAtomInstances = []) ∧
    (f.getAtomInstances).2.getAtomInstances = f.getAtomInstances ∧
    (f.addAtomInstance a).atomsWF = true ∧
    (∀ b, ((f.deleteAtomInstance b).1).atomsWF = true) ∧
    ((∀ k ∈ mapKeys f.mAtomInstances, a.groupExecutionOrder < k) →
      ((f.addAtomInstance a).getAtomInstances).1 = a :: (f.getAtomInstances).1) := by
  have hb : bucketsWF f.mAtomInstances = true := by
    simp only [Function.atomsWF, Bool.and_eq_true] at hwf
    exact hwf.1
  have hfst := getAtomInstances_fst f hwf
  refine ⟨hfst, ?_, ?_, ?_, rfl, ?_, getAtomInstances_memo f, ?_, ?_, ?_⟩
  · rw [hfst]
    exact pairwise_flatten _ hb
  · intro g
    rw [hfst]
    exact filter_flatten _ hb g
  · exact bucketGet_insert _ _ _ hb
  · intro b h2
    unfold Function.deleteAtomInstance at h2 ⊢
    by_cases hr : (mapDeleteAtom f.mAtomInstances b.groupExecutionOrder b).2
    · simp only [hr, if_pos]
    · simp only [hr] at h2
      simp at h2
  · simp only [Function.atomsWF, Function.addAtomInstance, Bool.and_eq_true]
    exact ⟨bucketsWF_insert _ _ _ rfl hb, by simp⟩
  · intro b
    unfold Function.deleteAtomInstance
    by_cases hr : (mapDeleteAtom f.mAtomInstances b.groupExecutionOrder b).2
    · simp only [hr, if_pos]
      simp only [Function.atomsWF, Bool.and_eq_true]
      exact ⟨bucketsWF_delete _ _ _ hb, by simp⟩
    · simp only [hr]
      simp only [Bool.false_eq_true, if_false, Function.atomsWF, Bool.and_eq_true,
        Bool.or_eq_true, decide_eq_true_eq]
      refine ⟨bucketsWF_delete _ _ _ hb, ?_⟩
      simp only [Function.atomsWF, Bool.and_eq_true, Bool.or_eq_true,
        decide_eq_true_eq] at hwf
      rcases hwf.2 with h2 | h2
      · exact Or.inl h2
      · refine Or.inr ?_
        rw [flatten_delete_not_found _ _ _ (by simpa using hr)]
        exact h2
  · intro hsmall
    have hcache : (f.addAtomInstance a).mSortedAtomInstances = [] := rfl
    unfold Function.getAtomInstances
    rw [if_pos (by rw [hcache]; rfl)]
    show flattenAtoms (f.addAtomInstance a).mAtomInstances = a :: (f.getAtomInstances).1
    rw [hfst]
    exact flatten_insert_front _ _ _ hsmall

theorem C1_witness :
    c1f.atomsWF = true ∧
    (c1f.getAtomInstances).1 = flattenAtoms c1f.mAtomInstances ∧
    ((∀ k ∈ mapKeys c1f.mAtomInstances, (⟨3, 1⟩ : FunctionAtom).groupExecutionOrder < k) →
      ((c1f.addAtomInstance ⟨3, 1⟩).getAtomInstances).1 = ⟨3, 1⟩ :: (c1f.getAtomInstances).1) := by
  refine ⟨by decide, ?_, ?_⟩
  · exact (C1_atom_order_and_memo c1f ⟨3, 1⟩ (by decide)).1
  · exact (C1_atom_order_and_memo c1f ⟨3, 1⟩ (by decide)).2.2.2.2.2.2.2.2.2

end OgreRTShader
